import Mathlib

/-!
Verification of the delivery orchestration layer of the mns-terminal repository:
a shallow embedding of `src/infrastructure/sse/sseClient.ts` (the operative,
second class definition in that file) and
`src/infrastructure/delivery/deliveryController.ts`, together with theorems
about the mutual-exclusion invariant, degrade/recovery transitions, backoff
schedule, throttling pipeline, poll resilience and the no-throw boundary.

Modelling conventions:
- JavaScript values decoded by `JSON.parse` are modelled by the inductive
  `Json`; `undefined` (an absent property) is modelled by `Option.none` of a
  field lookup, distinct from `Json.null`.
- The host event loop is single threaded: each handler body runs atomically,
  so the controller is modelled as a step function on an explicit state,
  driven by top-level events (public calls, SSE state-change callbacks,
  timer fires, poll ticks).  A timer that is not pending cannot fire, and an
  SSE state-change callback can only be delivered while the controller holds
  a live client (`sseClient != null`); such impossible events are no-ops.
- `setTimeout`/`setInterval` handles are modelled by pending-timer flags;
  clearing an already-fired one-shot handle is a no-op in JS, so the
  `retryTimer` field models "a retry is pending".
- Times (`Date.now()` values) are modelled as `Int`, payload lengths as `Nat`.
- Observable callback invocations (`onModeChange`, `onPacket`,
  `onStateChange`, `onError`, the issuing of a REST fetch) are collected as
  output lists; `console` logging carries no packet content anywhere in the
  two source files and is not modelled.
-/

namespace MNS

/-- A decoded JSON value (the result of a successful `JSON.parse`). -/
inductive Json where
  | null : Json
  | bool (b : Bool) : Json
  | num (n : Int) : Json
  | str (s : String) : Json
  | arr (xs : List Json) : Json
  | obj (fields : List (String × Json)) : Json

/-- Property lookup in an object's field list (JS object keys are unique;
the first binding wins). -/
def lookupField : List (String × Json) → String → Option Json
  | [], _ => none
  | (k, v) :: rest, key => if k = key then some v else lookupField rest key

/-- JavaScript property access `v[key]`: `none` models `undefined`.
Non-object values (including strings and arrays, which carry none of the
property names used by this code) yield `undefined`. -/
def getField : Json → String → Option Json
  | Json.obj fields, key => lookupField fields key
  | _, _ => none

/-- JavaScript truthiness of a decoded JSON value. -/
def truthy : Json → Bool
  | Json.null => false
  | Json.bool b => b
  | Json.num n => n != 0
  | Json.str s => s != ""
  | Json.arr _ => true
  | Json.obj _ => true

/-- `typeof v === "object"` for a decoded JSON value (`typeof null` and
`typeof []` are both `"object"` in JavaScript). -/
def isObjectType : Json → Bool
  | Json.null => true
  | Json.arr _ => true
  | Json.obj _ => true
  | _ => false

/-- Truthiness of a possibly-`undefined` value (`undefined` is falsy). -/
def truthyOpt : Option Json → Bool
  | none => false
  | some v => truthy v

/-- Strict equality `v === n` against a number literal. -/
def isNum (v : Json) (n : Int) : Bool :=
  match v with
  | Json.num m => m == n
  | _ => false

/-- `typeof v[key] === "string"`. -/
def isStringField (v : Json) (key : String) : Bool :=
  match getField v key with
  | some (Json.str _) => true
  | _ => false

/-- `Array.isArray(v[key])`. -/
def isArrayField (v : Json) (key : String) : Bool :=
  match getField v key with
  | some (Json.arr _) => true
  | _ => false

/-- `packet.meta?.tier ?? 0`, as computed identically in
`SSEClient.normalizePacket` and `DeliveryController.isValidPacketStructure`:
optional chaining yields `undefined` when `meta` is absent or carries no
`tier` property, and `??` replaces `undefined`/`null` by the number `0`. -/
def jsTier (p : Json) : Json :=
  match getField p "meta" with
  | some m =>
    match getField m "tier" with
    | some Json.null => Json.num 0
    | some t => t
    | none => Json.num 0
  | none => Json.num 0

/-- `SSEConnectionState` from sseClient.ts. -/
inductive SSEConnectionState where
  | DISCONNECTED
  | CONNECTING
  | CONNECTED
  | ERROR
deriving DecidableEq, Repr

/-- `DeliveryMode` from deliveryController.ts. -/
inductive DeliveryMode where
  | SSE_PRIMARY
  | REST_DEGRADED
deriving DecidableEq, Repr

namespace SSEClient

/-- `SSEClientConfig` (the `endpoint` string plays no role in the logic). -/
structure SSEClientConfig where
  endpoint : String
  maxPayloadSize : Nat
  throttleMs : Int

/-- `DEFAULT_CONFIG` of sseClient.ts. -/
def defaultConfig : SSEClientConfig :=
  { endpoint := "/stream", maxPayloadSize := 16384, throttleMs := 1000 }

/-- The mutable fields of an `SSEClient` instance: `eventSource` (is the
handle non-null), the connection `state`, and the throttle timestamp
`lastMessageTime`. -/
structure SseState where
  eventSource : Bool
  state : SSEConnectionState
  lastMessageTime : Int
deriving DecidableEq, Repr

/-- A fresh client (field initializers of the class). -/
def initSseState : SseState :=
  { eventSource := false, state := .DISCONNECTED, lastMessageTime := 0 }

/-- Observable outputs of the client: `onStateChange` and `onError`
callback invocations. -/
inductive SseOut where
  | stateChange (st : SSEConnectionState)
  | errorCb
deriving DecidableEq, Repr

/-- `SSEClient.setState`: mutate and notify only on an actual change. -/
def setState (s : SseState) (st : SSEConnectionState) : SseState × List SseOut :=
  if s.state = st then (s, [])
  else ({ s with state := st }, [SseOut.stateChange st])

/-- `new EventSource(...)`: the constructor may throw (modelled by the
fault flag), which `connect()` catches. -/
def newEventSource (ctorThrows : Bool) : Except String Unit :=
  if ctorThrows then Except.error "EventSource constructor threw" else Except.ok ()

/-- `eventSource.close()`: may throw (modelled by the fault flag), which
`disconnect()` catches. -/
def closeEventSource (closeThrows : Bool) : Except String Unit :=
  if closeThrows then Except.error "close threw" else Except.ok ()

/-- `SSEClient.connect()` at the exception boundary.  The `Except` result
type records whether an exception escapes the public operation; the body's
try/catch turns a constructor failure into `setState(ERROR)` plus an
`onError` callback, so the result is always `Except.ok`. -/
def connectRun (s : SseState) (ctorThrows : Bool) :
    Except String (SseState × List SseOut) :=
  if s.eventSource then Except.ok (s, [])
  else
    let r1 := setState s .CONNECTING
    match newEventSource ctorThrows with
    | Except.ok _ => Except.ok ({ r1.1 with eventSource := true }, r1.2)
    | Except.error _ =>
      let r2 := setState r1.1 .ERROR
      Except.ok (r2.1, r1.2 ++ r2.2 ++ [SseOut.errorCb])

/-- `SSEClient.disconnect()` at the exception boundary: a close failure is
caught and followed by the same forced cleanup, so the result is always
`Except.ok` with `eventSource` cleared and state `DISCONNECTED`. -/
def disconnectRun (s : SseState) (closeThrows : Bool) :
    Except String (SseState × List SseOut) :=
  if !s.eventSource then Except.ok (s, [])
  else
    match closeEventSource closeThrows with
    | Except.ok _ =>
      let r := setState { s with eventSource := false } .DISCONNECTED
      Except.ok (r.1, r.2)
    | Except.error _ =>
      let r := setState { s with eventSource := false } .DISCONNECTED
      Except.ok (r.1, r.2)

/-- `payload.nav.x ?? "unknown"` (`??` fires on `undefined` and `null`). -/
def coalesceUnknown (v : Option Json) : Json :=
  match v with
  | some Json.null => Json.str "unknown"
  | some t => t
  | none => Json.str "unknown"

/-- A normalized field of the form `key: payload.nav.key ?? undefined`.
A JavaScript property whose value is `undefined` behaves as absent for
every use this code makes of the packet, so it is modelled by omission. -/
def optKey (v : Json) (key : String) : List (String × Json) :=
  match getField v key with
  | some Json.null => []
  | some t => [(key, t)]
  | none => []

/-- `Array.isArray(v) ? v : []`. -/
def arrOrEmpty (v : Option Json) : Json :=
  match v with
  | some (Json.arr xs) => Json.arr xs
  | _ => Json.arr []

/-- `SSEClient.normalizePacket` (the tolerant validation of the operative
class): accept any payload whose `nav` property is a truthy object, filling
missing `nav` sub-fields with `"unknown"`; copy `meta`/`navigator` blocks
defensively when present.  Nothing in the body can throw, so the source's
try/catch never produces the `null` of its catch arm. -/
def normalizePacket (payload : Json) : Option Json :=
  match getField payload "nav" with
  | some navV =>
    if truthy navV && isObjectType navV then
      let tier := jsTier payload
      let navN := Json.obj
        ([("regime", coalesceUnknown (getField navV "regime")),
          ("risk", coalesceUnknown (getField navV "risk")),
          ("confidence", coalesceUnknown (getField navV "confidence"))]
          ++ optKey navV "status" ++ optKey navV "scope"
          ++ optKey navV "bias" ++ optKey navV "stability")
      let base := [("nav", navN)]
      let withMeta :=
        match getField payload "meta" with
        | some m =>
          if truthy m then
            base ++ [("meta", Json.obj
              ([("tier", tier)] ++ optKey m "signature"
                ++ optKey m "kid" ++ optKey m "issued_at"))]
          else base
        | none => base
      let withNavigator :=
        match getField payload "navigator" with
        | some nv =>
          if truthy nv then
            withMeta ++ [("navigator", Json.obj
              [("drivers", arrOrEmpty (getField nv "drivers")),
               ("blockers", arrOrEmpty (getField nv "blockers")),
               ("gaps", arrOrEmpty (getField nv "gaps"))])]
          else withMeta
        | none => withMeta
      some (Json.obj withNavigator)
    else none
  | none => none

/-- The `event.data` of a `nav_update` message: either not a string at all,
or a string of the given length whose `JSON.parse` outcome is `parsed`
(`none` models a parse exception). -/
inductive EventData where
  | nonString
  | strData (len : Nat) (parsed : Option Json)

/-- `SSEClient.handleNavUpdate`, the message pipeline of the operative
class, in source order: throttle check, data-type check (`!data` also
rejects the empty string), size check, `JSON.parse`, truthy-object check,
`normalizePacket`; only full acceptance updates `lastMessageTime` and
forwards a packet (`some`), every other path drops the message silently
(`none`) and leaves the state untouched. -/
def handleNavUpdate (cfg : SSEClientConfig) (s : SseState) (d : EventData)
    (now : Int) : SseState × Option Json :=
  if now - s.lastMessageTime < cfg.throttleMs then (s, none)
  else
    match d with
    | EventData.nonString => (s, none)
    | EventData.strData len parsed =>
      if len = 0 then (s, none)
      else if cfg.maxPayloadSize < len then (s, none)
      else
        match parsed with
        | none => (s, none)
        | some payload =>
          if truthy payload && isObjectType payload then
            match normalizePacket payload with
            | some pkt => ({ s with lastMessageTime := now }, some pkt)
            | none => (s, none)
          else (s, none)

/-- A message that passes every structural check of the pipeline
(everything except the throttle): a non-empty string within the size limit
that parses to a truthy object accepted by `normalizePacket`. -/
def structurallyValid (cfg : SSEClientConfig) (d : EventData) : Bool :=
  match d with
  | EventData.nonString => false
  | EventData.strData len parsed =>
    len != 0 && decide (len ≤ cfg.maxPayloadSize) &&
      (match parsed with
       | some payload =>
         truthy payload && isObjectType payload && (normalizePacket payload).isSome
       | none => false)

/-- Process a sequence of `nav_update` messages (data, arrival time) in
order, collecting every forwarded packet. -/
def processAll (cfg : SSEClientConfig) : SseState → List (EventData × Int) →
    SseState × List Json
  | s, [] => (s, [])
  | s, (d, t) :: rest =>
    ((processAll cfg (handleNavUpdate cfg s d t).1 rest).1,
      (handleNavUpdate cfg s d t).2.toList
        ++ (processAll cfg (handleNavUpdate cfg s d t).1 rest).2)

end SSEClient

namespace DeliveryController

/-- `maxRetries` field of `DeliveryController` (hard-coded to 5). -/
def maxRetries : Nat := 5

/-- The mutable fields of a `DeliveryController` instance.  `sseClient`,
`restPollingTimer` and `sseRecoveryTimer` model whether the corresponding
handle is non-null; `retryTimer` models a pending one-shot retry and
carries its scheduled delay in milliseconds. -/
structure CtrlState where
  sseClient : Bool
  currentMode : DeliveryMode
  isStarted : Bool
  sseErrorCount : Nat
  retryTimer : Option Nat
  restPollingTimer : Bool
  sseRecoveryTimer : Bool
deriving DecidableEq, Repr

/-- Field initializers of the class. -/
def initState : CtrlState :=
  { sseClient := false, currentMode := .SSE_PRIMARY, isStarted := false,
    sseErrorCount := 0, retryTimer := none,
    restPollingTimer := false, sseRecoveryTimer := false }

/-- Observable outputs of the controller: `onModeChange` invocations,
the issuing of a REST fetch, and `onPacket` invocations with their source
annotation. -/
inductive COut where
  | modeChange (m : DeliveryMode)
  | pollIssued
  | packet (p : Json) (source : DeliveryMode)

/-- Recognizer for an `onModeChange m` output. -/
def isModeChangeTo (m : DeliveryMode) : COut → Bool
  | COut.modeChange m' => decide (m' = m)
  | _ => false

/-- `stopSSEMode`: disconnect and null the SSE client if present. -/
def stopSSEMode (s : CtrlState) : CtrlState :=
  if s.sseClient then { s with sseClient := false } else s

/-- `stopRESTMode`: clear the REST polling interval and the SSE recovery
interval if present. -/
def stopRESTMode (s : CtrlState) : CtrlState :=
  let s1 := if s.restPollingTimer then { s with restPollingTimer := false } else s
  if s1.sseRecoveryTimer then { s1 with sseRecoveryTimer := false } else s1

/-- `setMode`: mutate and invoke `onModeChange` only on an actual change. -/
def setMode (s : CtrlState) (m : DeliveryMode) : CtrlState × List COut :=
  if s.currentMode = m then (s, [])
  else ({ s with currentMode := m }, [COut.modeChange m])

/-- `startSSEMode`: stop REST first (the mutual-exclusion ordering), then
create and connect a fresh SSE client and set the mode to `SSE_PRIMARY`.
The synchronous `CONNECTING` state-change callback fired inside
`connect()` is a no-op in `handleSSEStateChange` and is elided. -/
def startSSEMode (s : CtrlState) : CtrlState × List COut :=
  let s1 := stopRESTMode s
  let s2 := { s1 with sseClient := true }
  setMode s2 .SSE_PRIMARY

/-- `degradeToRESTMode`: stop SSE first (the mutual-exclusion ordering),
start the polling and recovery intervals, set the mode, then issue an
immediate poll (`pollRESTEndpoint()`), not waiting for the first tick. -/
def degradeToRESTMode (s : CtrlState) : CtrlState × List COut :=
  let s1 := stopSSEMode s
  let s2 := { s1 with restPollingTimer := true, sseRecoveryTimer := true }
  let r := setMode s2 .REST_DEGRADED
  (r.1, r.2 ++ [COut.pollIssued])

/-- `handleSSEStateChange`: on `ERROR`, bump the consecutive-error counter,
degrade once it reaches `maxRetries`, otherwise (re)schedule a retry after
`min(1000 * 2^(count-1), 16000)` ms; on `CONNECTED`, reset the counter,
cancel any pending retry and ensure the mode is `SSE_PRIMARY`; other
states fall through both `if` blocks. -/
def handleSSEStateChange (s : CtrlState) (st : SSEConnectionState) :
    CtrlState × List COut :=
  if st = .ERROR then
    let s1 := { s with sseErrorCount := s.sseErrorCount + 1 }
    if maxRetries ≤ s1.sseErrorCount then degradeToRESTMode s1
    else
      let backoffMs := min (1000 * 2 ^ (s1.sseErrorCount - 1)) 16000
      ({ s1 with retryTimer := some backoffMs }, [])
  else if st = .CONNECTED then
    let s1 := { s with sseErrorCount := 0, retryTimer := none }
    if s1.currentMode ≠ .SSE_PRIMARY then setMode s1 .SSE_PRIMARY else (s1, [])
  else (s, [])

/-- `start()`: no-op if already started, otherwise mark started and enter
SSE primary mode. -/
def start (s : CtrlState) : CtrlState × List COut :=
  if s.isStarted then (s, [])
  else startSSEMode { s with isStarted := true }

/-- `stop()`: no-op if not started, otherwise tear down both mechanisms,
clear the retry timer, reset the error counter and mark not-started. -/
def stop (s : CtrlState) : CtrlState × List COut :=
  if !s.isStarted then (s, [])
  else
    let s1 := stopSSEMode s
    let s2 := stopRESTMode s1
    let s3 := { s2 with retryTimer := none }
    let s4 := { s3 with sseErrorCount := 0 }
    ({ s4 with isStarted := false }, [])

/-- The retry `setTimeout` callback: the one-shot timer is consumed, then
`stopSSEMode(); startSSEMode();`. -/
def retryFire (s : CtrlState) : CtrlState × List COut :=
  let s1 := { s with retryTimer := none }
  startSSEMode (stopSSEMode s1)

/-- `attemptSSERecovery` (the recovery `setInterval` callback): stop REST
mode, then attempt an SSE connection. -/
def attemptSSERecovery (s : CtrlState) : CtrlState × List COut :=
  startSSEMode (stopRESTMode s)

/-- The outcome of one `fetch` of the REST endpoint, as observed by
`pollRESTEndpoint`: either the fetch (or a later `await`) threw, or a
response arrived with a status, an optional `content-type` header and a
`response.json()` outcome (`none` models a parse exception). -/
inductive FetchOutcome where
  | networkError
  | response (status : Nat) (contentType : Option String) (body : Option Json)

/-- `response.ok`: status in the 2xx range. -/
def responseOk (status : Nat) : Bool :=
  decide (200 ≤ status) && decide (status < 300)

/-- `headMatch pat s`: `pat` is a prefix of `s`. -/
def headMatch : List Char → List Char → Bool
  | [], _ => true
  | _ :: _, [] => false
  | p :: ps, c :: cs => p == c && headMatch ps cs

/-- `containsSeq s pat`: `pat` occurs as a contiguous run inside `s`. -/
def containsSeq : List Char → List Char → Bool
  | s, pat =>
    match s with
    | [] => headMatch pat []
    | _ :: rest => headMatch pat s || containsSeq rest pat

/-- `contentType.includes("application/json")`. -/
def ctIncludesJson (ct : String) : Bool :=
  containsSeq ct.toList "application/json".toList

/-- `DeliveryController.isValidPacketStructure` (the strict structural
validation applied to REST poll responses): a truthy object with a truthy
object `nav`, a tier in {0, 1, 2}, and per-tier required string/array
fields.  Nothing in the body can throw, so the catch arm is dead. -/
def isValidPacketStructure (packet : Json) : Bool :=
  if !(truthy packet && isObjectType packet) then false
  else
    match getField packet "nav" with
    | some navV =>
      if !(truthy navV && isObjectType navV) then false
      else
        let tier := jsTier packet
        if !(isNum tier 0 || isNum tier 1 || isNum tier 2) then false
        else if isNum tier 0 then
          isStringField navV "regime" && isStringField navV "risk" &&
            isStringField navV "confidence"
        else
          match getField packet "meta" with
          | some m =>
            if !(truthy m && isObjectType m) then false
            else if !(isStringField m "signature" && isStringField m "kid" &&
                isStringField m "issued_at") then false
            else if !(isStringField navV "bias" && isStringField navV "stability")
              then false
            else if isNum tier 2 then
              match getField packet "navigator" with
              | some nv =>
                if !(truthy nv && isObjectType nv) then false
                else isArrayField nv "drivers" && isArrayField nv "blockers" &&
                  isArrayField nv "gaps"
              | none => false
            else true
          | none => false
    | none => false

/-- `pollRESTEndpoint` on one fetch outcome: every failure (network throw,
non-2xx, missing or non-JSON content type, `json()` throw, shape failure)
returns without forwarding; only a fully valid response yields a packet.
The surrounding try/catch absorbs the two throwing awaits, so the function
is total and throws nothing. -/
def pollRESTEndpoint (o : FetchOutcome) : Option Json :=
  match o with
  | FetchOutcome.networkError => none
  | FetchOutcome.response status contentType body =>
    if !responseOk status then none
    else
      match contentType with
      | none => none
      | some ct =>
        if !ctIncludesJson ct then none
        else
          match body with
          | none => none
          | some data =>
            if !isValidPacketStructure data then none
            else some data

/-- The top-level events that can reach a controller instance on the
single-threaded event loop: public calls, an SSE state-change callback
from the live client, the two timer callbacks, and a polling tick carrying
its fetch outcome. -/
inductive Ev where
  | start
  | stop
  | sse (st : SSEConnectionState)
  | retryTimeout
  | recoveryTick
  | pollTick (o : FetchOutcome)

/-- One atomic handler execution.  Events whose source cannot exist in the
current state (a state-change from a null client, a fire of a cleared
timer) cannot occur and are no-ops.  `pollRESTEndpoint` reads and writes
no controller field; its tick only emits outputs. -/
def step (s : CtrlState) (e : Ev) : CtrlState × List COut :=
  match e with
  | Ev.start => start s
  | Ev.stop => stop s
  | Ev.sse st => if s.sseClient then handleSSEStateChange s st else (s, [])
  | Ev.retryTimeout => if s.retryTimer.isSome then retryFire s else (s, [])
  | Ev.recoveryTick => if s.sseRecoveryTimer then attemptSSERecovery s else (s, [])
  | Ev.pollTick o =>
    if s.restPollingTimer then
      (s, COut.pollIssued ::
        (match pollRESTEndpoint o with
         | some p => [COut.packet p .REST_DEGRADED]
         | none => []))
    else (s, [])

/-- Run a sequence of events, concatenating their outputs. -/
def stepMany : CtrlState → List Ev → CtrlState × List COut
  | s, [] => (s, [])
  | s, e :: rest =>
    ((stepMany (step s e).1 rest).1, (step s e).2 ++ (stepMany (step s e).1 rest).2)

/-- The states a controller can reach from construction by any sequence of
events. -/
inductive Reachable : CtrlState → Prop
  | init : Reachable initState
  | next (s : CtrlState) (e : Ev) : Reachable s → Reachable (step s e).1

/-- `start()` at the exception boundary: it invokes `SSEClient.connect()`
on a fresh client (via `startSSEMode`) with no try/catch of its own, so an
exception escaping `connect` would propagate; `connectRun` never produces
one. -/
def startRun (s : CtrlState) (ctorThrows : Bool) :
    Except String (CtrlState × List COut) :=
  if s.isStarted then Except.ok (start s)
  else
    match SSEClient.connectRun SSEClient.initSseState ctorThrows with
    | Except.ok _ => Except.ok (start s)
    | Except.error e => Except.error e

/-- `stop()` at the exception boundary: it invokes
`SSEClient.disconnect()` on the live client (via `stopSSEMode`) with no
try/catch of its own; `disconnectRun` never produces an exception. -/
def stopRun (s : CtrlState) (sse : SSEClient.SseState) (closeThrows : Bool) :
    Except String (CtrlState × List COut) :=
  if !s.isStarted then Except.ok (stop s)
  else if s.sseClient then
    match SSEClient.disconnectRun sse closeThrows with
    | Except.ok _ => Except.ok (stop s)
    | Except.error e => Except.error e
  else Except.ok (stop s)

end DeliveryController

/-! ## Supporting lemmas -/

namespace DeliveryController

theorem stopSSEMode_eq (s : CtrlState) :
    stopSSEMode s = { s with sseClient := false } := by
  rcases s with ⟨a, b, c, d, e, f, g⟩
  unfold stopSSEMode
  cases a <;> simp

theorem stopRESTMode_eq (s : CtrlState) :
    stopRESTMode s =
      { s with restPollingTimer := false, sseRecoveryTimer := false } := by
  rcases s with ⟨a, b, c, d, e, f, g⟩
  unfold stopRESTMode
  cases f <;> cases g <;> simp

/-- The state produced by `startSSEMode`. -/
def afterStartSSE (s : CtrlState) : CtrlState :=
  { s with
    sseClient := true
    currentMode := .SSE_PRIMARY
    restPollingTimer := false
    sseRecoveryTimer := false }

/-- The state produced by `degradeToRESTMode`. -/
def afterDegrade (s : CtrlState) : CtrlState :=
  { s with
    sseClient := false
    currentMode := .REST_DEGRADED
    restPollingTimer := true
    sseRecoveryTimer := true }

theorem startSSEMode_eq (s : CtrlState) :
    startSSEMode s =
      (afterStartSSE s,
        if s.currentMode = DeliveryMode.SSE_PRIMARY then []
        else [COut.modeChange .SSE_PRIMARY]) := by
  rcases s with ⟨a, b, c, d, e, f, g⟩
  simp only [startSSEMode, setMode, afterStartSSE]
  rw [stopRESTMode_eq]
  by_cases hb : b = DeliveryMode.SSE_PRIMARY <;> simp [hb]

theorem degradeToRESTMode_eq (s : CtrlState) :
    degradeToRESTMode s =
      (afterDegrade s,
        (if s.currentMode = DeliveryMode.REST_DEGRADED then []
         else [COut.modeChange .REST_DEGRADED]) ++ [COut.pollIssued]) := by
  rcases s with ⟨a, b, c, d, e, f, g⟩
  simp only [degradeToRESTMode, setMode, afterDegrade]
  rw [stopSSEMode_eq]
  by_cases hb : b = DeliveryMode.REST_DEGRADED <;> simp [hb]

theorem setMode_sseClient (s : CtrlState) (m : DeliveryMode) :
    (setMode s m).1.sseClient = s.sseClient := by
  simp only [setMode]; split <;> rfl

theorem setMode_restPollingTimer (s : CtrlState) (m : DeliveryMode) :
    (setMode s m).1.restPollingTimer = s.restPollingTimer := by
  simp only [setMode]; split <;> rfl

theorem setMode_sseRecoveryTimer (s : CtrlState) (m : DeliveryMode) :
    (setMode s m).1.sseRecoveryTimer = s.sseRecoveryTimer := by
  simp only [setMode]; split <;> rfl

theorem setMode_isStarted (s : CtrlState) (m : DeliveryMode) :
    (setMode s m).1.isStarted = s.isStarted := by
  simp only [setMode]; split <;> rfl

theorem setMode_sseErrorCount (s : CtrlState) (m : DeliveryMode) :
    (setMode s m).1.sseErrorCount = s.sseErrorCount := by
  simp only [setMode]; split <;> rfl

theorem setMode_retryTimer (s : CtrlState) (m : DeliveryMode) :
    (setMode s m).1.retryTimer = s.retryTimer := by
  simp only [setMode]; split <;> rfl

theorem setMode_currentMode (s : CtrlState) (m : DeliveryMode) :
    (setMode s m).1.currentMode = m := by
  simp only [setMode]; split <;> simp_all

/-- Every single event handler preserves the mutual-exclusion property. -/
theorem mutualExclusionStep (s : CtrlState) (e : Ev)
    (h : ¬(s.sseClient = true ∧ s.restPollingTimer = true)) :
    ¬(((step s e).1.sseClient = true) ∧ ((step s e).1.restPollingTimer = true)) := by
  cases e with
  | start =>
    simp only [step, start]
    split
    · exact h
    · rw [startSSEMode_eq]; simp [afterStartSSE]
  | stop =>
    simp only [step, stop]
    split
    · exact h
    · rw [stopSSEMode_eq, stopRESTMode_eq]; simp
  | sse st =>
    simp only [step]
    split
    · simp only [handleSSEStateChange]
      split
      · split
        · rw [degradeToRESTMode_eq]; simp [afterDegrade]
        · simpa using h
      · split
        · split
          · simp only [setMode_sseClient, setMode_restPollingTimer]
            simpa using h
          · simpa using h
        · exact h
    · exact h
  | retryTimeout =>
    simp only [step, retryFire]
    split
    · rw [stopSSEMode_eq, startSSEMode_eq]; simp [afterStartSSE]
    · exact h
  | recoveryTick =>
    simp only [step, attemptSSERecovery]
    split
    · rw [stopRESTMode_eq, startSSEMode_eq]; simp [afterStartSSE]
    · exact h
  | pollTick o =>
    simp only [step]
    split
    · exact h
    · exact h

end DeliveryController

/-! ## Claim theorems -/

open DeliveryController in
/-- Claim C1 (mutual exclusion): in every controller state reachable by any
sequence of `start()`/`stop()` calls, SSE state-change callbacks, retry-timer
fires, recovery-timer fires and poll ticks, the SSE client
(`sseClient != null`) and the REST polling timer (`restPollingTimer != null`)
are never active at the same time. -/
theorem C1_mutual_exclusion (s : CtrlState) (h : Reachable s) :
    ¬(s.sseClient = true ∧ s.restPollingTimer = true) := by
  induction h with
  | init => simp [initState]
  | next s e hs ih => exact mutualExclusionStep s e ih

open DeliveryController in
/-- Witness for C1: the initial state is reachable and satisfies the
invariant. -/
theorem C1_mutual_exclusion_witness :
    Reachable initState ∧
      ¬(initState.sseClient = true ∧ initState.restPollingTimer = true) :=
  ⟨Reachable.init, C1_mutual_exclusion initState Reachable.init⟩

open DeliveryController in
/-- Claim C2 (degrade): from any state in `SSE_PRIMARY` with error counter 0
and a live SSE client, exactly `maxRetries = 5` consecutive SSE `ERROR`
state-change events with no intervening `CONNECTED` leave the controller in
`REST_DEGRADED` with the SSE client torn down (null); along the way
`onModeChange(REST_DEGRADED)` fires exactly once and a REST poll is issued
immediately on entry (the trace contains no poll-timer tick, so the
`pollIssued` output is the immediate entry poll, not an interval fire). -/
theorem C2_degrade (s : CtrlState)
    (hm : s.currentMode = DeliveryMode.SSE_PRIMARY)
    (hc : s.sseErrorCount = 0)
    (hcl : s.sseClient = true) :
    (stepMany s (List.replicate 5 (Ev.sse .ERROR))).1.currentMode = .REST_DEGRADED ∧
    (stepMany s (List.replicate 5 (Ev.sse .ERROR))).1.sseClient = false ∧
    (stepMany s (List.replicate 5 (Ev.sse .ERROR))).2 =
      [COut.modeChange .REST_DEGRADED, COut.pollIssued] ∧
    (stepMany s (List.replicate 5 (Ev.sse .ERROR))).2.countP
      (isModeChangeTo .REST_DEGRADED) = 1 := by
  rcases s with ⟨a, b, c, d, e, f, g⟩
  dsimp only at hm hc hcl
  subst hm; subst hc; subst hcl
  refine ⟨?_, ?_, ?_, ?_⟩ <;>
    simp [stepMany, step, handleSSEStateChange, degradeToRESTMode_eq, afterDegrade,
      maxRetries, List.replicate, isModeChangeTo, List.countP_cons]

open DeliveryController in
/-- Witness for C2 at a concrete started state. -/
theorem C2_degrade_witness :
    (CtrlState.mk true .SSE_PRIMARY true 0 none false false).currentMode =
      DeliveryMode.SSE_PRIMARY ∧
    (stepMany (CtrlState.mk true .SSE_PRIMARY true 0 none false false)
        (List.replicate 5 (Ev.sse .ERROR))).1.currentMode = .REST_DEGRADED ∧
    (stepMany (CtrlState.mk true .SSE_PRIMARY true 0 none false false)
        (List.replicate 5 (Ev.sse .ERROR))).1.sseClient = false :=
  ⟨rfl,
   (C2_degrade (CtrlState.mk true .SSE_PRIMARY true 0 none false false) rfl rfl rfl).1,
   (C2_degrade (CtrlState.mk true .SSE_PRIMARY true 0 none false false) rfl rfl rfl).2.1⟩

open DeliveryController in
/-- Claim C3 (backoff schedule): for every consecutive-error count `n` with
`1 ≤ n ≤ maxRetries - 1`, the `ERROR` handler fired from a state with
`n - 1` previous errors schedules a retry after exactly
`min(1000 * 2^(n-1), 16000)` milliseconds; on this range the cap never
binds, so the delay is exactly `1000 * 2^(n-1)` (1000, 2000, 4000, 8000 ms
for n = 1..4). -/
theorem C3_backoff (s : CtrlState) (n : Nat)
    (h1 : 1 ≤ n) (h4 : n ≤ maxRetries - 1)
    (hc : s.sseErrorCount = n - 1) (hcl : s.sseClient = true) :
    (step s (Ev.sse .ERROR)).1.retryTimer =
      some (min (1000 * 2 ^ (n - 1)) 16000) ∧
    min (1000 * 2 ^ (n - 1)) 16000 = 1000 * 2 ^ (n - 1) := by
  have h4' : n ≤ 4 := by simpa [maxRetries] using h4
  have hmin : 1000 * 2 ^ (n - 1) ≤ 16000 := by
    have hp : (2 : Nat) ^ (n - 1) ≤ 2 ^ 3 :=
      Nat.pow_le_pow_right (by norm_num) (by omega)
    calc 1000 * 2 ^ (n - 1) ≤ 1000 * 8 := by
          exact Nat.mul_le_mul_left 1000 (by simpa using hp)
      _ ≤ 16000 := by norm_num
  have hlt : ¬(maxRetries ≤ n - 1 + 1) := by
    simp only [maxRetries]; omega
  refine ⟨?_, Nat.min_eq_left hmin⟩
  simp [step, hcl, handleSSEStateChange, hc, hlt]

open DeliveryController in
/-- Witness for C3 at n = 1: the first retry is scheduled after 1000 ms. -/
theorem C3_backoff_witness :
    1 ≤ 1 ∧ 1 ≤ maxRetries - 1 ∧
    (step (CtrlState.mk true .SSE_PRIMARY true 0 none false false)
        (Ev.sse .ERROR)).1.retryTimer = some (min (1000 * 2 ^ (1 - 1)) 16000) ∧
    min (1000 * 2 ^ (1 - 1)) 16000 = 1000 * 2 ^ (1 - 1) :=
  ⟨le_refl 1, by decide,
   C3_backoff (CtrlState.mk true .SSE_PRIMARY true 0 none false false) 1
     (by decide) (by decide) rfl rfl⟩

namespace DeliveryController

/-- The `CONNECTED` handler resets the counter, cancels the pending retry,
ends in `SSE_PRIMARY`, and touches no timer field. -/
theorem connectedFields (s : CtrlState) (hcl : s.sseClient = true) :
    (step s (Ev.sse .CONNECTED)).1.sseErrorCount = 0 ∧
    (step s (Ev.sse .CONNECTED)).1.retryTimer = none ∧
    (step s (Ev.sse .CONNECTED)).1.currentMode = .SSE_PRIMARY ∧
    (step s (Ev.sse .CONNECTED)).1.restPollingTimer = s.restPollingTimer := by
  simp only [step, hcl, if_true, handleSSEStateChange, reduceCtorEq, reduceIte]
  split
  · refine ⟨?_, ?_, ?_, ?_⟩ <;>
      simp_all [setMode_sseErrorCount, setMode_retryTimer, setMode_currentMode,
        setMode_restPollingTimer]
  · simp_all

/-- Firing the recovery timer lands in the state produced by
`startSSEMode` after a full REST teardown. -/
theorem recoveryTick_eq (s : CtrlState) (hg : s.sseRecoveryTimer = true) :
    (step s Ev.recoveryTick).1 = afterStartSSE s := by
  rcases s with ⟨a, b, c, d, e, f, g⟩
  dsimp only at hg; subst hg
  simp only [step, attemptSSERecovery, if_true]
  rw [stopRESTMode_eq, startSSEMode_eq]
  simp [afterStartSSE]

end DeliveryController

open DeliveryController in
/-- Claim C4 (connected transition and recovery): whenever the live SSE
client reports `CONNECTED`, the controller resets the error counter to 0,
cancels any pending retry timer and ends in `SSE_PRIMARY`.  Moreover, from
`REST_DEGRADED`, already at the recovery-timer fire the REST polling timer
is cancelled and the mode is `SSE_PRIMARY` — so it is certainly so by the
time the recovery connection reaches `CONNECTED` — and no poll tick can
fire or forward anything in between (the next scheduled poll never fires). -/
theorem C4_connected_recovery (s : CtrlState) :
    (s.sseClient = true →
      (step s (Ev.sse .CONNECTED)).1.sseErrorCount = 0 ∧
      (step s (Ev.sse .CONNECTED)).1.retryTimer = none ∧
      (step s (Ev.sse .CONNECTED)).1.currentMode = .SSE_PRIMARY) ∧
    (s.currentMode = DeliveryMode.REST_DEGRADED → s.sseRecoveryTimer = true →
      (step s Ev.recoveryTick).1.restPollingTimer = false ∧
      (step s Ev.recoveryTick).1.currentMode = .SSE_PRIMARY ∧
      (∀ o, step (step s Ev.recoveryTick).1 (Ev.pollTick o) =
        ((step s Ev.recoveryTick).1, [])) ∧
      (step (step s Ev.recoveryTick).1 (Ev.sse .CONNECTED)).1.restPollingTimer = false ∧
      (step (step s Ev.recoveryTick).1 (Ev.sse .CONNECTED)).1.currentMode =
        .SSE_PRIMARY ∧
      (step (step s Ev.recoveryTick).1 (Ev.sse .CONNECTED)).1.sseErrorCount = 0 ∧
      (step (step s Ev.recoveryTick).1 (Ev.sse .CONNECTED)).1.retryTimer = none) := by
  constructor
  · intro hcl
    exact ⟨(connectedFields s hcl).1, (connectedFields s hcl).2.1,
      (connectedFields s hcl).2.2.1⟩
  · intro _ hg
    have h1 := recoveryTick_eq s hg
    have hcl1 : (step s Ev.recoveryTick).1.sseClient = true := by
      rw [h1]; rfl
    have hrest1 : (step s Ev.recoveryTick).1.restPollingTimer = false := by
      rw [h1]; rfl
    have hmode1 : (step s Ev.recoveryTick).1.currentMode = .SSE_PRIMARY := by
      rw [h1]; rfl
    refine ⟨hrest1, hmode1, ?_, ?_, (connectedFields _ hcl1).2.2.1,
      (connectedFields _ hcl1).1, (connectedFields _ hcl1).2.1⟩
    · intro o
      rw [h1]
      simp [step, afterStartSSE]
    · rw [(connectedFields _ hcl1).2.2.2, hrest1]

open DeliveryController in
/-- Witness for C4 at a concrete degraded state. -/
theorem C4_connected_recovery_witness :
    (CtrlState.mk true .SSE_PRIMARY true 2 (some 2000) false false).sseClient = true ∧
    (step (CtrlState.mk true .SSE_PRIMARY true 2 (some 2000) false false)
        (Ev.sse .CONNECTED)).1.sseErrorCount = 0 ∧
    (step (CtrlState.mk false .REST_DEGRADED true 5 none true true)
        Ev.recoveryTick).1.restPollingTimer = false ∧
    (step (step (CtrlState.mk false .REST_DEGRADED true 5 none true true)
        Ev.recoveryTick).1 (Ev.sse .CONNECTED)).1.currentMode = .SSE_PRIMARY :=
  ⟨rfl,
   ((C4_connected_recovery
      (CtrlState.mk true .SSE_PRIMARY true 2 (some 2000) false false)).1 rfl).1,
   ((C4_connected_recovery
      (CtrlState.mk false .REST_DEGRADED true 5 none true true)).2 rfl rfl).1,
   ((C4_connected_recovery
      (CtrlState.mk false .REST_DEGRADED true 5 none true true)).2 rfl rfl).2.2.2.2.1⟩

namespace DeliveryController

theorem start_isStarted (s : CtrlState) : (start s).1.isStarted = true := by
  simp only [start]
  split
  · simp_all
  · rw [startSSEMode_eq]; simp [afterStartSSE]

end DeliveryController

open DeliveryController in
/-- Claim C6 (idempotence and complete teardown): a second `start()` call
changes nothing; `stop()` on a non-started controller is a no-op (state
unchanged, no outputs); after `stop()` on a started controller the retry,
REST polling and SSE recovery timers are all cleared, the SSE client is
null, the error counter is 0 and `isActive()` is false. -/
theorem C6_idempotence :
    (∀ s : CtrlState, (start (start s).1).1 = (start s).1) ∧
    (∀ s : CtrlState, s.isStarted = false → stop s = (s, [])) ∧
    (∀ s : CtrlState, s.isStarted = true →
      (stop s).1.retryTimer = none ∧
      (stop s).1.restPollingTimer = false ∧
      (stop s).1.sseRecoveryTimer = false ∧
      (stop s).1.sseClient = false ∧
      (stop s).1.sseErrorCount = 0 ∧
      (stop s).1.isStarted = false) := by
  refine ⟨?_, ?_, ?_⟩
  · intro s
    have h := start_isStarted s
    generalize (start s).1 = t at h ⊢
    simp [start, h]
  · intro s h
    simp [stop, h]
  · intro s h
    rcases s with ⟨a, b, c, d, e, f, g⟩
    dsimp only at h
    subst h
    simp only [stop]
    rw [stopSSEMode_eq, stopRESTMode_eq]
    simp

open DeliveryController in
/-- Witness for C6: `stop()` is a no-op on the fresh controller, and a full
teardown from a concrete started, degraded state. -/
theorem C6_idempotence_witness :
    (initState.isStarted = false ∧ stop initState = (initState, [])) ∧
    ((CtrlState.mk false .REST_DEGRADED true 5 (some 8000) true true).isStarted
        = true ∧
      (stop (CtrlState.mk false .REST_DEGRADED true 5 (some 8000) true true)).1.retryTimer
        = none ∧
      (stop (CtrlState.mk false .REST_DEGRADED true 5 (some 8000) true true)).1.isStarted
        = false) :=
  ⟨⟨rfl, C6_idempotence.2.1 initState rfl⟩,
   ⟨rfl,
    (C6_idempotence.2.2 (CtrlState.mk false .REST_DEGRADED true 5 (some 8000) true true)
      rfl).1,
    (C6_idempotence.2.2 (CtrlState.mk false .REST_DEGRADED true 5 (some 8000) true true)
      rfl).2.2.2.2.2⟩⟩

open DeliveryController in
/-- Claim C7 (pull-poll resilience): a poll tick, whatever its fetch
outcome, never changes any controller field (so no mode change, no timer
cancellation or rescheduling, no error-counter change — and, the embedding
being total with the catch arm mapped to a silent return, no exception);
its only outputs are the issued fetch and, exactly when the response is ok
with a JSON content type, a parsed body and a valid structure, one
`onPacket` invocation annotated `REST_DEGRADED`. -/
theorem C7_poll_resilience (s : CtrlState) (o : FetchOutcome)
    (h : s.restPollingTimer = true) :
    (step s (Ev.pollTick o)).1 = s ∧
    (step s (Ev.pollTick o)).2 =
      COut.pollIssued ::
        (match pollRESTEndpoint o with
         | some p => [COut.packet p .REST_DEGRADED]
         | none => []) ∧
    ((pollRESTEndpoint o).isSome = true ↔
      ∃ status ct body, o = FetchOutcome.response status ct body ∧
        responseOk status = true ∧
        (∃ c, ct = some c ∧ ctIncludesJson c = true) ∧
        (∃ j, body = some j ∧ isValidPacketStructure j = true)) := by
  refine ⟨by simp [step, h], by simp [step, h], ?_, ?_⟩
  · intro hs
    cases o with
    | networkError => simp [pollRESTEndpoint] at hs
    | response status ct body =>
      refine ⟨status, ct, body, rfl, ?_⟩
      simp only [pollRESTEndpoint] at hs
      cases hok : responseOk status with
      | false => simp [hok] at hs
      | true =>
        simp only [hok, Bool.not_true, Bool.false_eq_true, if_false] at hs
        cases ct with
        | none => simp at hs
        | some c =>
          cases hct : ctIncludesJson c with
          | false => simp [hct] at hs
          | true =>
            simp only [hct, Bool.not_true, Bool.false_eq_true, if_false] at hs
            cases body with
            | none => simp at hs
            | some j =>
              cases hv : isValidPacketStructure j with
              | false => simp [hv] at hs
              | true => exact ⟨rfl, ⟨c, rfl, hct⟩, ⟨j, rfl, hv⟩⟩
  · rintro ⟨status, ct, body, rfl, hok, ⟨c, rfl, hct⟩, ⟨j, rfl, hv⟩⟩
    simp [pollRESTEndpoint, hok, hct, hv]

/-- A structurally valid Tier-0 packet used by several witnesses. -/
def vTier0 : Json :=
  Json.obj [("nav", Json.obj
    [("regime", Json.str "COMPRESSION"),
     ("risk", Json.str "NORMAL"),
     ("confidence", Json.str "MEDIUM")])]

open DeliveryController in
/-- Witness for C7 at a concrete polling state and a successful fetch. -/
theorem C7_poll_resilience_witness :
    (CtrlState.mk false .REST_DEGRADED true 5 none true true).restPollingTimer
      = true ∧
    (step (CtrlState.mk false .REST_DEGRADED true 5 none true true)
        (Ev.pollTick (FetchOutcome.response 200 (some "application/json")
          (some vTier0)))).1 =
      CtrlState.mk false .REST_DEGRADED true 5 none true true ∧
    (pollRESTEndpoint (FetchOutcome.response 200 (some "application/json")
        (some vTier0))).isSome = true :=
  ⟨rfl,
   (C7_poll_resilience (CtrlState.mk false .REST_DEGRADED true 5 none true true)
     (FetchOutcome.response 200 (some "application/json") (some vTier0)) rfl).1,
   by decide⟩

namespace SSEClient

/-- `handleNavUpdate` either drops the message with the whole state
untouched, or accepts it, advancing `lastMessageTime` to the arrival time
and forwarding one packet. -/
theorem handleNavUpdate_dichotomy (cfg : SSEClientConfig) (s : SseState)
    (d : EventData) (now : Int) :
    handleNavUpdate cfg s d now = (s, none) ∨
    ∃ pkt, handleNavUpdate cfg s d now =
      ({ s with lastMessageTime := now }, some pkt) := by
  cases d with
  | nonString =>
    simp only [handleNavUpdate]
    split
    · left; rfl
    · left; rfl
  | strData len parsed =>
    cases parsed with
    | none =>
      simp only [handleNavUpdate]
      split
      · left; rfl
      · split
        · left; rfl
        · split
          · left; rfl
          · left; rfl
    | some payload =>
      simp only [handleNavUpdate]
      split
      · left; rfl
      · split
        · left; rfl
        · split
          · left; rfl
          · split
            · split
              · right; exact ⟨_, rfl⟩
              · left; rfl
            · left; rfl

/-- A dropped message leaves the client state (in particular
`lastMessageTime`) unchanged. -/
theorem handleNavUpdate_reject_eq (cfg : SSEClientConfig) (s : SseState)
    (d : EventData) (now : Int)
    (h : (handleNavUpdate cfg s d now).2 = none) :
    (handleNavUpdate cfg s d now).1 = s := by
  rcases handleNavUpdate_dichotomy cfg s d now with heq | ⟨pkt, heq⟩
  · rw [heq]
  · rw [heq] at h; simp at h

/-- An accepted message advances `lastMessageTime` to its arrival time. -/
theorem handleNavUpdate_accept_eq (cfg : SSEClientConfig) (s : SseState)
    (d : EventData) (now : Int)
    (h : (handleNavUpdate cfg s d now).2.isSome = true) :
    (handleNavUpdate cfg s d now).1 = { s with lastMessageTime := now } := by
  rcases handleNavUpdate_dichotomy cfg s d now with heq | ⟨pkt, heq⟩
  · rw [heq] at h; simp at h
  · rw [heq]

/-- A structurally valid message arriving outside the throttle window is
accepted and forwarded. -/
theorem handleNavUpdate_accepts (cfg : SSEClientConfig) (s : SseState)
    (d : EventData) (now : Int)
    (ht : cfg.throttleMs ≤ now - s.lastMessageTime)
    (hv : structurallyValid cfg d = true) :
    (handleNavUpdate cfg s d now).2.isSome = true := by
  simp only [handleNavUpdate]
  rw [if_neg (Int.not_lt.mpr ht)]
  cases d with
  | nonString => exact absurd hv (by simp [structurallyValid])
  | strData len parsed =>
    cases parsed with
    | none => simp [structurallyValid] at hv
    | some payload =>
      simp only [structurallyValid, Bool.and_eq_true, bne_iff_ne, ne_eq,
        decide_eq_true_eq] at hv
      obtain ⟨⟨hlen0, hlenle⟩, hto, hns⟩ := hv
      dsimp only
      rw [if_neg hlen0, if_neg (by omega : ¬cfg.maxPayloadSize < len)]
      rw [if_pos (by simp [hto.1, hto.2])]
      cases hnp : normalizePacket payload with
      | none => rw [hnp] at hns; simp at hns
      | some pkt => simp

end SSEClient

open SSEClient in
/-- Claim C5 (throttle): if a data-update message is accepted at time `t1`,
then any second data-update message arriving at `t2` with `t2 - t1`,
the elapsed time since the last accepted message, below the configured
throttle interval is dropped silently: exactly one packet (the first) is
forwarded, the second produces no callback and leaves the client state
completely unchanged (no content of it is recorded anywhere; the source's
drop path is a bare `return`). -/
theorem C5_throttle (cfg : SSEClientConfig) (s : SseState)
    (d1 d2 : EventData) (t1 t2 : Int)
    (h1 : (handleNavUpdate cfg s d1 t1).2.isSome = true)
    (h2 : t2 - t1 < cfg.throttleMs) :
    (handleNavUpdate cfg s d1 t1).2.isSome = true ∧
    handleNavUpdate cfg (handleNavUpdate cfg s d1 t1).1 d2 t2 =
      ((handleNavUpdate cfg s d1 t1).1, none) := by
  refine ⟨h1, ?_⟩
  rw [handleNavUpdate_accept_eq cfg s d1 t1 h1]
  simp only [handleNavUpdate]
  rw [if_pos]
  exact h2

open SSEClient in
/-- Witness for C5: two valid messages 500 ms apart under the default
1000 ms throttle. -/
theorem C5_throttle_witness :
    (handleNavUpdate defaultConfig initSseState
        (EventData.strData 20 (some vTier0)) 5000).2.isSome = true ∧
    handleNavUpdate defaultConfig
        (handleNavUpdate defaultConfig initSseState
          (EventData.strData 20 (some vTier0)) 5000).1
        (EventData.strData 20 (some vTier0)) 5500 =
      ((handleNavUpdate defaultConfig initSseState
          (EventData.strData 20 (some vTier0)) 5000).1, none) :=
  C5_throttle defaultConfig initSseState
    (EventData.strData 20 (some vTier0)) (EventData.strData 20 (some vTier0))
    5000 5500 (by decide) (by decide)

open SSEClient in
/-- Claim C10 (implicit — throttle window is consumed only by accepted
messages): every dropped data-update message (non-string data, oversized
payload, parse failure, failed normalization — and likewise a throttled
one) leaves the client state, in particular `lastMessageTime`, unchanged;
consequently, after any run of messages that forwarded nothing, a
structurally valid message arriving at least `throttleMs` after the last
accepted message is forwarded. -/
theorem C10_reject_preserves (cfg : SSEClientConfig) (s : SseState)
    (msgs : List (EventData × Int)) (d : EventData) (t : Int)
    (hrej : (processAll cfg s msgs).2 = [])
    (hv : structurallyValid cfg d = true)
    (ht : cfg.throttleMs ≤ t - s.lastMessageTime) :
    (∀ (s' : SseState) (d' : EventData) (t' : Int),
      (handleNavUpdate cfg s' d' t').2 = none →
        (handleNavUpdate cfg s' d' t').1 = s') ∧
    (processAll cfg s msgs).1.lastMessageTime = s.lastMessageTime ∧
    (handleNavUpdate cfg (processAll cfg s msgs).1 d t).2.isSome = true := by
  have hstate : ∀ (ms : List (EventData × Int)) (s0 : SseState),
      (processAll cfg s0 ms).2 = [] → (processAll cfg s0 ms).1 = s0 := by
    intro ms
    induction ms with
    | nil => intro s0 _; rfl
    | cons p rest ih =>
      rcases p with ⟨d', t'⟩
      intro s0 h
      simp only [processAll] at h ⊢
      rcases List.append_eq_nil.mp h with ⟨ha, hb⟩
      have hnone : (handleNavUpdate cfg s0 d' t').2 = none := by
        cases hx : (handleNavUpdate cfg s0 d' t').2 <;> simp [hx] at ha ⊢
      rw [handleNavUpdate_reject_eq cfg s0 d' t' hnone] at hb ⊢
      exact ih s0 hb
  have h0 := hstate msgs s hrej
  refine ⟨fun s' d' t' h => handleNavUpdate_reject_eq cfg s' d' t' h, ?_, ?_⟩
  · rw [h0]
  · rw [h0]
    exact handleNavUpdate_accepts cfg s d t ht hv

open SSEClient in
/-- Witness for C10: two rejected messages (non-string data, then a parse
failure) do not consume the window; a valid message at t = 5000 is still
forwarded. -/
theorem C10_reject_preserves_witness :
    (processAll defaultConfig initSseState
        [(EventData.nonString, 1100), (EventData.strData 5 none, 2200)]).2 = [] ∧
    (processAll defaultConfig initSseState
        [(EventData.nonString, 1100), (EventData.strData 5 none, 2200)]).1.lastMessageTime
      = initSseState.lastMessageTime ∧
    (handleNavUpdate defaultConfig
        (processAll defaultConfig initSseState
          [(EventData.nonString, 1100), (EventData.strData 5 none, 2200)]).1
        (EventData.strData 20 (some vTier0)) 5000).2.isSome = true :=
  ⟨rfl,
   (C10_reject_preserves defaultConfig initSseState
     [(EventData.nonString, 1100), (EventData.strData 5 none, 2200)]
     (EventData.strData 20 (some vTier0)) 5000
     rfl (by decide) (by decide)).2.1,
   (C10_reject_preserves defaultConfig initSseState
     [(EventData.nonString, 1100), (EventData.strData 5 none, 2200)]
     (EventData.strData 20 (some vTier0)) 5000
     rfl (by decide) (by decide)).2.2⟩

/-- Claim C8 as stated is false on the code — counterexample: the decoded
value `{"nav": {}}` is accepted (normalized, with `"unknown"` fills) by the
SSE pipeline's `normalizePacket`, but rejected by the REST pipeline's
`isValidPacketStructure` (no string `regime`/`risk`/`confidence`), so the
two structural-validation steps do not implement the same acceptance
policy. -/
theorem C8_policies_differ :
    ¬(((SSEClient.normalizePacket (Json.obj [("nav", Json.obj [])])).isSome = true) ↔
      (DeliveryController.isValidPacketStructure (Json.obj [("nav", Json.obj [])])
        = true)) := by
  decide

/-- Claim C8, amended to what the code satisfies: the SSE pipeline is
strictly more permissive — every decoded JSON value accepted by the REST
pipeline (`DeliveryController.isValidPacketStructure`) is also accepted by
the SSE pipeline (`SSEClient.normalizePacket`); the converse fails (see the
counterexample). -/
theorem C8_rest_accept_implies_sse_accept (v : Json)
    (h : DeliveryController.isValidPacketStructure v = true) :
    (SSEClient.normalizePacket v).isSome = true := by
  simp only [DeliveryController.isValidPacketStructure] at h
  cases hn : getField v "nav" with
  | none => simp [hn] at h
  | some navV =>
    simp only [hn] at h
    simp only [SSEClient.normalizePacket, hn]
    by_cases hnav : (truthy navV && isObjectType navV) = true
    · simp [hnav]
    · have hnav' : (truthy navV && isObjectType navV) = false := by
        revert hnav; cases truthy navV && isObjectType navV <;> simp
      simp [hnav'] at h

/-- Witness for the amended C8 at a concrete valid Tier-0 packet. -/
theorem C8_rest_accept_implies_sse_accept_witness :
    DeliveryController.isValidPacketStructure vTier0 = true ∧
    (SSEClient.normalizePacket vTier0).isSome = true :=
  ⟨by decide, C8_rest_accept_implies_sse_accept vTier0 (by decide)⟩

namespace SSEClient

theorem setState_state (s : SseState) (st : SSEConnectionState) :
    (setState s st).1.state = st := by
  simp only [setState]; split <;> simp_all

/-- `connect()` returns normally for every client state and even when the
`EventSource` constructor throws. -/
theorem connectRun_isOk (s : SseState) (ctorThrows : Bool) :
    ∃ r, connectRun s ctorThrows = Except.ok r := by
  cases hse : s.eventSource <;> cases ctorThrows <;>
    simp [connectRun, newEventSource, hse]

/-- `disconnect()` returns normally for every client state and even when
`close()` throws. -/
theorem disconnectRun_isOk (s : SseState) (closeThrows : Bool) :
    ∃ r, disconnectRun s closeThrows = Except.ok r := by
  cases hse : s.eventSource <;> cases closeThrows <;>
    simp [disconnectRun, closeEventSource, hse]

end SSEClient

open SSEClient DeliveryController in
/-- Claim C9 (no-throw boundary): `start()`, `stop()`, `connect()` and
`disconnect()` never propagate an exception under normal failure
conditions — every result is `Except.ok`, for every fault-flag value; an
`EventSource` construction failure is converted into the `ERROR` state (and
a logged `onError` event), a close failure into forced cleanup and the
`DISCONNECTED` state. -/
theorem C9_no_throw (ss : SseState) (cs : CtrlState) (fc fd : Bool) :
    (∃ r, connectRun ss fc = Except.ok r) ∧
    (∃ r, disconnectRun ss fd = Except.ok r) ∧
    (∃ r, startRun cs fc = Except.ok r) ∧
    (∃ r, stopRun cs ss fd = Except.ok r) ∧
    (ss.eventSource = false → fc = true →
      ∃ r, connectRun ss fc = Except.ok r ∧ r.1.state = .ERROR) ∧
    (ss.eventSource = true →
      ∃ r, disconnectRun ss fd = Except.ok r ∧
        r.1.state = .DISCONNECTED ∧ r.1.eventSource = false) := by
  refine ⟨connectRun_isOk ss fc, disconnectRun_isOk ss fd, ?_, ?_, ?_, ?_⟩
  · simp only [startRun]
    split
    · exact ⟨_, rfl⟩
    · rcases connectRun_isOk initSseState fc with ⟨r, hr⟩
      rw [hr]
      exact ⟨_, rfl⟩
  · simp only [stopRun]
    split
    · exact ⟨_, rfl⟩
    · split
      · rcases disconnectRun_isOk ss fd with ⟨r, hr⟩
        rw [hr]
        exact ⟨_, rfl⟩
      · exact ⟨_, rfl⟩
  · intro hse hfc
    subst hfc
    simp only [connectRun, newEventSource, hse, Bool.false_eq_true, if_false,
      reduceIte]
    exact ⟨_, rfl, setState_state _ _⟩
  · intro hse
    cases fd with
    | false =>
      simp only [disconnectRun, closeEventSource, hse, Bool.not_true,
        Bool.false_eq_true, if_false, reduceIte]
      exact ⟨_, rfl, setState_state _ _, by
        simp only [setState]; split <;> rfl⟩
    | true =>
      simp only [disconnectRun, closeEventSource, hse, Bool.not_true,
        Bool.false_eq_true, if_false, reduceIte]
      exact ⟨_, rfl, setState_state _ _, by
        simp only [setState]; split <;> rfl⟩

open SSEClient DeliveryController in
/-- Witness for C9: a fresh client whose `EventSource` constructor throws
ends up in `ERROR`, and a connected client whose `close()` throws still
ends up cleaned up and `DISCONNECTED`; the public operations all return
`Except.ok`. -/
theorem C9_no_throw_witness :
    (∃ r, connectRun initSseState true = Except.ok r) ∧
    (∃ r, startRun initState true = Except.ok r) ∧
    (∃ r, connectRun initSseState true = Except.ok r ∧ r.1.state = .ERROR) ∧
    (∃ r, disconnectRun (SseState.mk true .CONNECTED 0) true = Except.ok r ∧
      r.1.state = .DISCONNECTED ∧ r.1.eventSource = false) :=
  ⟨(C9_no_throw initSseState initState true true).1,
   (C9_no_throw initSseState initState true true).2.2.1,
   (C9_no_throw initSseState initState true true).2.2.2.2.1 rfl rfl,
   (C9_no_throw (SseState.mk true .CONNECTED 0) initState true true).2.2.2.2.2 rfl⟩

end MNS
